import Mathlib

/-
Verification of the rabbit resilience library (a RabbitMQ client wrapper).
The definitions below are a shallow embedding of the Go source: option
validation, the dial loop of New, the Consume and ConsumeOnce loops with
their retry bookkeeping, the best-effort error reporting, the Publish
operation with its cancellation race, the Stop and Close lifecycle calls,
and one iteration of the background reconnect watcher. External effects
(dialling, the broker channel operations, the handler function, the retry
policy methods) are passed in as oracle parameters; everything else follows
the control flow of the source line by line.
-/

namespace Rabbit

/-- Client mode. In the source this is an integer type with constants
Both = 0, Consumer = 1 and Producer = 2; other values are representable
and are rejected by validMode. -/
abbrev Mode := Int

def Both : Mode := 0

def Consumer : Mode := 1

def Producer : Mode := 2

/-- DefaultRetryReconnectSec from the source constants. -/
def DefaultRetryReconnectSec : Int := 60

/-- Binding, as in the source: the information needed to bind a queue to
an exchange. -/
structure Binding where
  ExchangeName : String
  BindingKeys : List String
  ExchangeDeclare : Bool
  ExchangeType : String
  ExchangeDurable : Bool
  ExchangeAutoDelete : Bool
  deriving DecidableEq

/-- Options, as in the source. QueueArgs is a possibly-nil map in Go and
is modelled as an optional association list. The default AppID and
ConsumerTag are random per process in Go; they are modelled as fixed
nonempty strings, which is all applyDefaults depends on. -/
structure Options where
  URLs : List String
  Mode : Mode
  QueueName : String
  Bindings : List Binding
  QosPrefetchCount : Int
  QosPrefetchSize : Int
  RetryReconnectSec : Int
  QueueDurable : Bool
  QueueExclusive : Bool
  QueueAutoDelete : Bool
  QueueDeclare : Bool
  QueueArgs : Option (List (String × String))
  AutoAck : Bool
  ConsumerTag : String
  AppID : String
  UseTLS : Bool
  SkipVerifyTLS : Bool
  ConnectionTimeout : Int
  deriving DecidableEq

/-- validMode from the source: the mode must be one of Both, Producer,
Consumer. -/
def validMode (mode : Mode) : Except String Unit :=
  if mode = Both ∨ mode = Producer ∨ mode = Consumer then Except.ok ()
  else Except.error ("invalid mode")

/-- The per-binding checks of validateBindings, in source order: an
exchange type is required when declaring, the exchange name is required,
and outside Producer mode at least one binding key is required. -/
def checkBinding (mode : Mode) (b : Binding) : Except String Unit :=
  if b.ExchangeDeclare ∧ b.ExchangeType = "" then
    Except.error ("ExchangeType cannot be empty if ExchangeDeclare set to true")
  else if b.ExchangeName = "" then
    Except.error ("ExchangeName cannot be empty")
  else if mode ≠ Producer ∧ b.BindingKeys.length < 1 then
    Except.error ("At least one BindingKeys must be specified")
  else Except.ok ()

/-- The loop of validateBindings over the binding list, returning the first
error. -/
def checkBindingList (mode : Mode) : List Binding → Except String Unit
  | [] => Except.ok ()
  | b :: rest =>
    match checkBinding mode b with
    | Except.error e => Except.error e
    | Except.ok _ => checkBindingList mode rest

/-- validateBindings from the source: when the mode allows publishing
(Producer or Both) more than one binding is rejected, then each binding is
checked. -/
def validateBindings (opts : Options) : Except String Unit :=
  if (opts.Mode = Producer ∨ opts.Mode = Both) ∧ opts.Bindings.length > 1 then
    Except.error ("Exactly one Exchange must be specified when publishing messages")
  else checkBindingList opts.Mode opts.Bindings

/-- applyDefaults from the source: fills RetryReconnectSec, AppID,
ConsumerTag and QueueArgs when unset. -/
def applyDefaults (opts : Options) : Options :=
  let o := if opts.RetryReconnectSec = 0 then
    { opts with RetryReconnectSec := DefaultRetryReconnectSec } else opts
  let o := if o.AppID = "" then { o with AppID := "p-rabbit-default" } else o
  let o := if o.ConsumerTag = "" then { o with ConsumerTag := "c-rabbit-default" } else o
  if o.QueueArgs = none then { o with QueueArgs := some [] } else o

/-- ValidateOptions from the source, in source order: nil check, at least
one non-empty URL, at least one binding, per-binding validation, defaults,
mode check. The Go version mutates opts in place; here the
defaults-applied options are returned on success. -/
def ValidateOptions : Option Options → Except String Options
  | none => Except.error ("Options cannot be nil")
  | some opts =>
    if ¬ opts.URLs.any (fun u => u.length > 0) then
      Except.error ("At least one non-empty URL must be provided")
    else if opts.Bindings.length = 0 then
      Except.error ("At least one Exchange must be specified")
    else
      match validateBindings opts with
      | Except.error e => Except.error ("binding validation failed: " ++ e)
      | Except.ok _ =>
        let opts := applyDefaults opts
        match validMode opts.Mode with
        | Except.error e => Except.error e
        | Except.ok _ => Except.ok opts

/-- An established broker connection, identified by the URL that was
dialled. -/
structure Conn where
  url : String
  deriving DecidableEq

/-- The error classes New can return: a configuration error from
ValidateOptions, a connect error wrapping a dial failure, or a failure to
build the initial consumer channel. -/
inductive NewErr where
  | configErr (msg : String)
  | connectErr (wrappedDialErr : String)
  | buildErr (msg : String)
  deriving DecidableEq

def isErr {ε α : Type} : Except ε α → Bool
  | Except.error _ => true
  | Except.ok _ => false

/-- The dial loop of New. The Go loop keeps a single err variable that is
overwritten on every iteration and breaks on the first success; the
accumulator argument carries that variable. Returns the URLs attempted in
order, the connection if any, and the final value of err. -/
def dialLoop (dial : String → Except String Conn) :
    List String → Option String → List String × Option Conn × Option String
  | [], err => ([], none, err)
  | url :: rest, _ =>
    match dial url with
    | Except.ok c => ([url], some c, none)
    | Except.error e =>
      let r := dialLoop dial rest (some e)
      (url :: r.1, r.2.1, r.2.2)

instance exceptDecEq {ε α : Type} [DecidableEq ε] [DecidableEq α] :
    DecidableEq (Except ε α)
  | Except.ok x, Except.ok y =>
    if h : x = y then isTrue (by rw [h])
    else isFalse (by intro hc; cases hc; exact h rfl)
  | Except.ok _, Except.error _ => isFalse (by intro hc; cases hc)
  | Except.error _, Except.ok _ => isFalse (by intro hc; cases hc)
  | Except.error e1, Except.error e2 =>
    if h : e1 = e2 then isTrue (by rw [h])
    else isFalse (by intro hc; cases hc; exact h rfl)

/-- The observable outcome of New: which URLs were dialled, in order, and
the result. On success the connection is returned (it is an Option only
because the Go code would reach this point with a nil connection if the
URL list were empty, a case validation rules out). -/
structure NewResult where
  attempted : List String
  result : Except NewErr (Option Conn)
  deriving DecidableEq

/-- New from the source: validate, then dial each URL in listed order
until one succeeds, then (outside Producer mode) build the initial
consumer channel, modelled by the consumerBuildOk oracle. A dial error
left in err after the loop is wrapped and returned; only the last dial
error is kept, matching the single err variable of the source. -/
def New (dial : String → Except String Conn) (consumerBuildOk : Bool)
    (opts? : Option Options) : NewResult :=
  match ValidateOptions opts? with
  | Except.error e => ⟨[], Except.error (NewErr.configErr ("invalid options: " ++ e))⟩
  | Except.ok opts =>
    let r := dialLoop dial opts.URLs none
    match r.2.2 with
    | some e => ⟨r.1, Except.error (NewErr.connectErr ("unable to dial server: " ++ e))⟩
    | none =>
      if opts.Mode ≠ Producer ∧ ¬ consumerBuildOk then
        ⟨r.1, Except.error (NewErr.buildErr ("unable to get initial delivery channel"))⟩
      else ⟨r.1, Except.ok r.2.1⟩

/-- Recognizer for a configuration-error outcome of New. -/
def isConfigErr : NewResult → Bool
  | ⟨_, Except.error (NewErr.configErr _)⟩ => true
  | _ => false

/-- The dial errors recoverable from a NewErr by unwrapping: a connectErr
wraps exactly one dial error (the last attempt). -/
def connectErrContents : NewErr → List String
  | NewErr.connectErr e => [e]
  | _ => []

/-- Follows the words of the spec, for comparison with the source
translation: a ConnectError aggregating all attempts would carry the dial
error of every failed attempt. -/
def connectErrAggregateSpec (dial : String → Except String Conn)
    (urls : List String) : List String :=
  urls.filterMap (fun u =>
    match dial u with
    | Except.ok _ => none
    | Except.error e => some e)

/-- A delivery as seen by the consume loops. forceReconnectHeader models
the presence of the ForceReconnectHeader key in msg.Headers, ackNil models
msg.Acknowledger being nil, and failuresBeforeSuccess is the handler
oracle: the number of times f(msg) returns an error before it succeeds. -/
structure Delivery where
  forceReconnectHeader : Bool
  ackNil : Bool
  failuresBeforeSuccess : Nat
  deriving DecidableEq

/-- The observable events of a consume run, in program order.
report i b is a writeError call for message i (b marks the intermediate
retry-flavoured report as opposed to the final one); signal is a send on
ReconnectChan; handle i is an invocation of the caller handler on message
i; backoff i k is the time.Sleep(retry.Duration(retries)) call made while
handling message i with the retries counter equal to k. -/
inductive CEvent where
  | report (msgIdx : Nat) (isRetryReport : Bool)
  | signal
  | handle (msgIdx : Nat)
  | backoff (msgIdx : Nat) (counter : Nat)
  deriving DecidableEq

/-- The RETRY loop of Consume for one message. hasPolicy models
retry being non-nil; sr is an oracle for the successive results of the
external retry.ShouldRetry() calls, indexed by a running call count pc.
The first argument counts the remaining handler failures, then the
handler succeeds; retries is the counter passed to retry.Duration.
Returns the events plus the final values of retries and pc. The source
increments retries only after a retry-approved failure and leaves it
untouched on the final report, and never resets it. -/
def retryLoop (hasPolicy : Bool) (sr : Nat → Bool) (msgIdx : Nat) :
    Nat → Nat → Nat → List CEvent × Nat × Nat
  | 0, retries, pc => ([CEvent.handle msgIdx], retries, pc)
  | Nat.succ fails, retries, pc =>
    if hasPolicy ∧ sr pc then
      let r := retryLoop hasPolicy sr msgIdx fails (retries + 1) (pc + 1)
      (CEvent.handle msgIdx :: CEvent.report msgIdx true ::
        CEvent.backoff msgIdx retries :: r.1, r.2)
    else
      ([CEvent.handle msgIdx, CEvent.report msgIdx false], retries,
        if hasPolicy then pc + 1 else pc)

/-- The MAIN loop of Consume over the deliveries received before the
context is cancelled. A poisoned message (force-reconnect header present
or nil acknowledger) produces one writeError report and one reconnect
signal and is never handled; otherwise the RETRY loop runs. The retries
counter and the ShouldRetry call count thread through unchanged from one
message to the next, exactly as the source declares var retries before
the MAIN label. -/
def consumeGo (hasPolicy : Bool) (sr : Nat → Bool) :
    List Delivery → Nat → Nat → Nat → List CEvent
  | [], _, _, _ => []
  | m :: rest, idx, retries, pc =>
    if m.forceReconnectHeader ∨ m.ackNil then
      CEvent.report idx false :: CEvent.signal ::
        consumeGo hasPolicy sr rest (idx + 1) retries pc
    else
      let r := retryLoop hasPolicy sr idx m.failuresBeforeSuccess retries pc
      r.1 ++ consumeGo hasPolicy sr rest (idx + 1) r.2.1 r.2.2

/-- Consume from the source: returns immediately (with no error
indication of any kind, Go Consume has no return value) when the client
is shut down or configured in Producer mode; otherwise runs the MAIN loop
with retries starting at 0. The result is the event trace of the run. -/
def Consume (shutdown : Bool) (mode : Mode) (hasPolicy : Bool)
    (sr : Nat → Bool) (msgs : List Delivery) : List CEvent :=
  if shutdown then []
  else if mode = Producer then []
  else consumeGo hasPolicy sr msgs 0 0 0

/-- The RETRY loop of ConsumeOnce: same shape as retryLoop but it logs
instead of calling writeError (no report events) and returns the terminal
handler error directly. -/
def retryLoopOnce (hasPolicy : Bool) (sr : Nat → Bool) :
    Nat → Nat → Nat → List CEvent × Except String Unit
  | 0, _, _ => ([CEvent.handle 0], Except.ok ())
  | Nat.succ fails, retries, pc =>
    if hasPolicy ∧ sr pc then
      let r := retryLoopOnce hasPolicy sr fails (retries + 1) (pc + 1)
      (CEvent.handle 0 :: CEvent.backoff 0 retries :: r.1, r.2)
    else
      ([CEvent.handle 0], Except.error ("error during consume"))

/-- ConsumeOnce from the source. msg? = none models being stopped by a
cancellation signal before a message arrives, which returns ok. Note that
the source checks only msg.Acknowledger == nil here: unlike Consume it
does not look for the force-reconnect header, and it sends no ConsumeError
report, returning an error value instead. -/
def ConsumeOnce (shutdown : Bool) (mode : Mode) (hasPolicy : Bool)
    (sr : Nat → Bool) (msg? : Option Delivery) :
    List CEvent × Except String Unit :=
  if shutdown then ([], Except.error ("client is shutdown"))
  else if mode = Producer then
    ([], Except.error ("unable to ConsumeOnce - library is configured in Producer mode"))
  else
    match msg? with
    | none => ([], Except.ok ())
    | some m =>
      if m.ackNil then
        ([CEvent.signal],
          Except.error ("detected nil acknowledger - sent signal to reconnect to RabbitMQ"))
      else retryLoopOnce hasPolicy sr m.failuresBeforeSuccess 0 0

/-- The counter values passed to retry.Duration over a trace, in order. -/
def backoffCounters : List CEvent → List Nat
  | [] => []
  | CEvent.backoff _ k :: t => k :: backoffCounters t
  | _ :: t => backoffCounters t

/-- The counter values passed to retry.Duration while handling message i. -/
def backoffCountersOfMsg (i : Nat) : List CEvent → List Nat
  | [] => []
  | CEvent.backoff j k :: t =>
    if j = i then k :: backoffCountersOfMsg i t else backoffCountersOfMsg i t
  | _ :: t => backoffCountersOfMsg i t

/-- What writeError does. errIsNil models a nil ConsumeError argument;
errChan is none for a nil channel and some (capacity, length) for a live
channel with its buffer capacity and current number of queued elements.
The source tests len(errChan) > 0 and otherwise hands the send to a fresh
goroutine, so the call itself never blocks. -/
inductive WriteAction where
  | skipNilError
  | skipNoChannel
  | dropped
  | dispatchedGoroutine
  deriving DecidableEq

def writeError (errIsNil : Bool) (errChan : Option (Nat × Nat)) : WriteAction :=
  if errIsNil then WriteAction.skipNilError
  else
    match errChan with
    | none => WriteAction.skipNoChannel
    | some (_cap, len) =>
      if len > 0 then WriteAction.dropped else WriteAction.dispatchedGoroutine

/-- Follows the words of the spec, for comparison with the source
translation writeError: a report is dropped exactly when the channel is
momentarily full, that is when its length equals its capacity. -/
def droppedWhenFullSpec (cap len : Nat) : Bool :=
  len = cap

/-- A producer server channel; closed records whether Close was called on
it. -/
structure Chan where
  closed : Bool
  deriving DecidableEq

/-- The fields of the Rabbit struct that Publish reads and writes. -/
structure PubState where
  shutdown : Bool
  mode : Mode
  producerChannel : Option Chan
  deriving DecidableEq

inductive PubResult where
  | ok
  | errShutdown
  | errConsumerMode
  | errCreateChannel
  | errPublishFailed
  | errCloseFailed
  | errContextCancelled
  deriving DecidableEq

/-- The outcome of one Publish call: its return value, whether this call
built the producer channel (the lazy first-publish build), and the
resulting state. -/
structure PubOutcome where
  result : PubResult
  rebuiltChannel : Bool
  state : PubState
  deriving DecidableEq

/-- The select race at the end of Publish. The model resolves the race
deterministically in favour of cancellation whenever the context is
cancelled (with an already-cancelled context the done branch is ready at
the select while the sender goroutine has not yet rendezvoused). On
cancellation the source closes the producer channel but leaves the
ProducerServerChannel field pointing at it; on the send path a closed
channel makes the underlying publish fail. -/
def pubSend (st : PubState) (ch : Chan) (rebuilt : Bool)
    (ctxCancelled sendOk closeOk : Bool) : PubOutcome :=
  if ctxCancelled then
    if closeOk then
      ⟨PubResult.errContextCancelled, rebuilt, { st with producerChannel := some ⟨true⟩ }⟩
    else
      ⟨PubResult.errCloseFailed, rebuilt, { st with producerChannel := some ⟨true⟩ }⟩
  else if ch.closed then ⟨PubResult.errPublishFailed, rebuilt, st⟩
  else if sendOk then ⟨PubResult.ok, rebuilt, st⟩
  else ⟨PubResult.errPublishFailed, rebuilt, st⟩

/-- Publish from the source: shutdown and Consumer-mode guards, then the
lazy build of the producer channel, done only when the
ProducerServerChannel field is nil (buildOk is the oracle for
newServerChannel), then the send race. -/
def Publish (st : PubState) (ctxCancelled buildOk sendOk closeOk : Bool) :
    PubOutcome :=
  if st.shutdown then ⟨PubResult.errShutdown, false, st⟩
  else if st.mode = Consumer then ⟨PubResult.errConsumerMode, false, st⟩
  else
    match st.producerChannel with
    | none =>
      if buildOk then
        pubSend { st with producerChannel := some ⟨false⟩ } ⟨false⟩ true
          ctxCancelled sendOk closeOk
      else ⟨PubResult.errCreateChannel, false, st⟩
    | some ch => pubSend st ch false ctxCancelled sendOk closeOk

/-- The lifecycle flags of the Rabbit struct used by Stop and Close. -/
structure LState where
  shutdown : Bool
  cancelled : Bool
  deriving DecidableEq

inductive StopResult where
  | ok
  | timeoutErr
  deriving DecidableEq

/-- Stop from the source: cancels the instance context and waits (bounded
by the timeout) on the consumer wait group; consumersExitInTime is the
oracle for whether the wait finishes before the timeout. Stop never
consults the shutdown flag. -/
def Stop (st : LState) (consumersExitInTime : Bool) : StopResult × LState :=
  (if consumersExitInTime then StopResult.ok else StopResult.timeoutErr,
    { st with cancelled := true })

inductive CloseResult where
  | ok
  | errShutdown
  | errConnClose
  deriving DecidableEq

/-- Close from the source: rejects an already shut down instance, cancels
the context, closes the connection (connCloseOk oracle) and only on
success marks the instance shut down. -/
def Close (st : LState) (connCloseOk : Bool) : CloseResult × LState :=
  if st.shutdown then (CloseResult.errShutdown, st)
  else if connCloseOk then (CloseResult.ok, { shutdown := true, cancelled := true })
  else (CloseResult.errConnClose, { st with cancelled := true })

/-- The two wake-up events of the runWatcher select: a connection-closed
notification or a reconnect signal. -/
inductive WTrigger where
  | notifyClose
  | reconnectSignal
  deriving DecidableEq

/-- The possible fates of one runWatcher iteration. exited: the goroutine
returned (leaving the watcher dead for the rest of the instance life);
stillDialing: the unbounded reconnect loop has not yet found a working
endpoint within the supplied attempt results; panicked: the process was
aborted by the panic in the channel-rebuild step; completed: the
iteration finished and the loop waits for the next trigger, with the
in-progress flag cleared. -/
inductive WStep where
  | exited
  | stillDialing
  | panicked
  | completed
  deriving DecidableEq

/-- One iteration of runWatcher from the source. inProgress is the value
of ReconnectInProgress read under its mutex when a reconnect signal
arrives; dialAttempts lists the successive results of the reconnect()
calls of the inner retry loop (the loop sleeps and retries until one is
true); after a successful reconnect the producer channel (Producer mode)
or the consumer channel (otherwise) is rebuilt, and a failure there hits
the panic call. Note the source has no case for the instance context:
the only way the loop ever returns is the duplicate-signal branch. -/
def runWatcherStep (inProgress : Bool) (trig : WTrigger)
    (dialAttempts : List Bool) (mode : Mode)
    (serverChanOk consumerChanOk : Bool) : WStep :=
  if trig = WTrigger.reconnectSignal ∧ inProgress then WStep.exited
  else if dialAttempts.any id = false then WStep.stillDialing
  else if (if mode = Producer then serverChanOk else consumerChanOk) then
    WStep.completed
  else WStep.panicked

theorem isErr_exists {ε α : Type} (x : Except ε α) (h : isErr x = true) :
    ∃ e, x = Except.error e := by
  cases x with
  | error e => exact ⟨e, rfl⟩
  | ok a => simp [isErr] at h

theorem validateOptions_err_of_noBindings (o : Options) (h : o.Bindings = []) :
    isErr (ValidateOptions (some o)) = true := by
  simp only [ValidateOptions]
  split
  · rfl
  · rw [if_pos (by rw [h]; rfl)]
    rfl

theorem validateOptions_err_of_noURL (o : Options)
    (h : ∀ u ∈ o.URLs, u.length = 0) :
    isErr (ValidateOptions (some o)) = true := by
  have hany : o.URLs.any (fun u => decide (u.length > 0)) = false := by
    rw [List.any_eq_false]
    intro u hu
    simp [h u hu]
  simp only [ValidateOptions]
  rw [if_pos (by rw [hany]; simp)]
  rfl

theorem checkBindingList_err_of_noKeys (mode : Mode) (hm : mode ≠ Producer)
    (l : List Binding) (bd : Binding) (hmem : bd ∈ l)
    (hk : bd.BindingKeys = []) :
    isErr (checkBindingList mode l) = true := by
  induction l with
  | nil => cases hmem
  | cons b rest ih =>
    rcases List.mem_cons.mp hmem with hb | hmem2
    · have hcb : isErr (checkBinding mode b) = true := by
        unfold checkBinding
        split
        · rfl
        · split
          · rfl
          · rw [if_pos ⟨hm, by rw [← hb, hk]; decide⟩]
            rfl
      simp only [checkBindingList]
      obtain ⟨e, he⟩ := isErr_exists _ hcb
      rw [he]
      rfl
    · simp only [checkBindingList]
      cases hcb : checkBinding mode b with
      | error e => rfl
      | ok _ => exact ih hmem2

theorem validateOptions_err_of_manyBindings (o : Options)
    (hm : o.Mode = Producer ∨ o.Mode = Both) (hb : o.Bindings.length ≠ 1) :
    isErr (ValidateOptions (some o)) = true := by
  by_cases h0 : o.Bindings.length = 0
  · exact validateOptions_err_of_noBindings o (List.length_eq_zero.mp h0)
  · have h2 : o.Bindings.length > 1 := by omega
    have hv : isErr (validateBindings o) = true := by
      unfold validateBindings
      rw [if_pos ⟨hm, h2⟩]
      rfl
    simp only [ValidateOptions]
    by_cases hu : (o.URLs.any fun u => decide (u.length > 0)) = true
    · rw [if_neg (not_not_intro hu), if_neg h0]
      obtain ⟨e, he⟩ := isErr_exists _ hv
      rw [he]
      rfl
    · rw [if_pos hu]
      rfl

theorem validateOptions_err_of_noKeys (o : Options)
    (hm : o.Mode = Consumer ∨ o.Mode = Both) (bd : Binding)
    (hmem : bd ∈ o.Bindings) (hk : bd.BindingKeys = []) :
    isErr (ValidateOptions (some o)) = true := by
  have hmp : o.Mode ≠ Producer := by
    rcases hm with h | h <;> rw [h] <;> decide
  have hv : isErr (validateBindings o) = true := by
    unfold validateBindings
    split
    · rfl
    · exact checkBindingList_err_of_noKeys o.Mode hmp o.Bindings bd hmem hk
  have hb0 : ¬ o.Bindings.length = 0 := by
    intro h
    rw [List.length_eq_zero] at h
    rw [h] at hmem
    cases hmem
  simp only [ValidateOptions]
  by_cases hu : (o.URLs.any fun u => decide (u.length > 0)) = true
  · rw [if_neg (not_not_intro hu), if_neg hb0]
    obtain ⟨e, he⟩ := isErr_exists _ hv
    rw [he]
    rfl
  · rw [if_pos hu]
    rfl

theorem new_configErr_of_invalid (dial : String → Except String Conn)
    (b : Bool) (o : Options) (h : isErr (ValidateOptions (some o)) = true) :
    (New dial b (some o)).attempted = []
    ∧ isConfigErr (New dial b (some o)) = true := by
  obtain ⟨e, he⟩ := isErr_exists _ h
  unfold New
  rw [he]
  exact ⟨rfl, rfl⟩

theorem dialLoop_cons (dial : String → Except String Conn) (url : String)
    (rest : List String) (e0 : Option String) :
    dialLoop dial (url :: rest) e0 =
      match dial url with
      | Except.ok c => ([url], some c, none)
      | Except.error e =>
        (url :: (dialLoop dial rest (some e)).1,
          (dialLoop dial rest (some e)).2) := by
  rfl

theorem dialLoop_all_fail (dial : String → Except String Conn)
    (urls : List String) :
    ∀ (e0 : Option String) (lastUrl lastE : String),
      (∀ u ∈ urls, isErr (dial u) = true) →
      urls.getLast? = some lastUrl → dial lastUrl = Except.error lastE →
      dialLoop dial urls e0 = (urls, none, some lastE) := by
  induction urls with
  | nil => intro e0 lu le _ hl _; simp at hl
  | cons u rest ih =>
    intro e0 lu le hf hl hd
    cases rest with
    | nil =>
      have hu : lu = u := by simpa using hl.symm
      subst hu
      simp [dialLoop, hd]
    | cons v rest2 =>
      obtain ⟨e, he⟩ := isErr_exists _ (hf u (by simp))
      have hl2 : (v :: rest2).getLast? = some lu := by
        simpa [List.getLast?_cons_cons] using hl
      have hrec := ih (some e) lu le (fun x hx => hf x (by simp [hx])) hl2 hd
      rw [dialLoop_cons, he]
      dsimp only
      rw [hrec]

theorem dialLoop_first_success (dial : String → Except String Conn)
    (c : Conn) :
    ∀ (pre : List String) (u : String) (post : List String)
      (e0 : Option String),
      (∀ v ∈ pre, isErr (dial v) = true) → dial u = Except.ok c →
      dialLoop dial (pre ++ u :: post) e0 = (pre ++ [u], some c, none) := by
  intro pre
  induction pre with
  | nil => intro u post e0 _ hu; simp [dialLoop, hu]
  | cons w pre2 ih =>
    intro u post e0 hf hu
    obtain ⟨e, he⟩ := isErr_exists _ (hf w (by simp))
    have hrec := ih u post (some e) (fun x hx => hf x (by simp [hx])) hu
    simp [dialLoop, he, hrec]

theorem backoffCounters_append (a b : List CEvent) :
    backoffCounters (a ++ b) = backoffCounters a ++ backoffCounters b := by
  induction a with
  | nil => rfl
  | cons e t ih => cases e <;> simp [backoffCounters, ih]

theorem retryLoop_counters (hp : Bool) (sr : Nat → Bool) (i : Nat) :
    ∀ (fails retries pc : Nat),
      ∃ k, backoffCounters (retryLoop hp sr i fails retries pc).1
          = List.range' retries k
        ∧ (retryLoop hp sr i fails retries pc).2.1 = retries + k := by
  intro fails
  induction fails with
  | zero =>
    intro r pc
    exact ⟨0, by simp [retryLoop, backoffCounters], by simp [retryLoop]⟩
  | succ f ih =>
    intro r pc
    by_cases h : hp = true ∧ sr pc = true
    · obtain ⟨k, hk, hr⟩ := ih (r + 1) (pc + 1)
      refine ⟨k + 1, ?_, ?_⟩
      · simp only [retryLoop, if_pos h, backoffCounters, hk]
        rw [List.range'_succ]
      · simp only [retryLoop, if_pos h, hr]
        omega
    · exact ⟨0, by simp [retryLoop, if_neg h, backoffCounters],
        by simp [retryLoop, if_neg h]⟩

theorem consumeGo_counters (hp : Bool) (sr : Nat → Bool) :
    ∀ (msgs : List Delivery) (idx retries pc : Nat),
      ∃ k, backoffCounters (consumeGo hp sr msgs idx retries pc)
        = List.range' retries k := by
  intro msgs
  induction msgs with
  | nil => intro idx r pc; exact ⟨0, rfl⟩
  | cons m rest ih =>
    intro idx r pc
    by_cases hpois : m.forceReconnectHeader = true ∨ m.ackNil = true
    · obtain ⟨k, hk⟩ := ih (idx + 1) r pc
      exact ⟨k, by simp [consumeGo, hpois, backoffCounters, hk]⟩
    · obtain ⟨k1, hk1, hr1⟩ :=
        retryLoop_counters hp sr idx m.failuresBeforeSuccess r pc
      obtain ⟨k2, hk2⟩ := ih (idx + 1)
        (retryLoop hp sr idx m.failuresBeforeSuccess r pc).2.1
        (retryLoop hp sr idx m.failuresBeforeSuccess r pc).2.2
      refine ⟨k2 + k1, ?_⟩
      simp only [consumeGo, if_neg hpois, backoffCounters_append, hk1, hk2]
      rw [hr1]
      exact List.range'_append_1 r k1 k2

theorem retryLoopOnce_handles (hp : Bool) (sr : Nat → Bool)
    (fails retries pc : Nat) :
    CEvent.handle 0 ∈ (retryLoopOnce hp sr fails retries pc).1 := by
  cases fails with
  | zero => simp [retryLoopOnce]
  | succ f =>
    by_cases h : hp = true ∧ sr pc = true <;>
      simp [retryLoopOnce, h]

theorem retryLoopOnce_no_signal (hp : Bool) (sr : Nat → Bool) :
    ∀ (fails retries pc : Nat),
      CEvent.signal ∉ (retryLoopOnce hp sr fails retries pc).1 := by
  intro fails
  induction fails with
  | zero => intro r pc; simp [retryLoopOnce]
  | succ f ih =>
    intro r pc
    by_cases h : hp = true ∧ sr pc = true
    · simpa [retryLoopOnce, h] using ih (r + 1) (pc + 1)
    · simp [retryLoopOnce, h]

/-- C1: the claim says a reconnect trigger received while a rebuild is
already in progress is a no-op and the watcher keeps running, exiting
only on the instance-wide cancellation signal. The source instead
returns from runWatcher on exactly that input, permanently terminating
the watcher goroutine (and it has no cancellation case at all): with the
in-progress flag set, a reconnect signal makes the iteration exit, while
the same signal with the flag clear completes a normal rebuild. -/
theorem c1_watcher_exits_on_duplicate_trigger :
    runWatcherStep true WTrigger.reconnectSignal [true] Both true true
      = WStep.exited
    ∧ runWatcherStep false WTrigger.reconnectSignal [true] Both true true
      = WStep.completed := by
  decide

/-- C2: the claim says a consumer or producer session build failure after
a successful reconnect is retried indefinitely and never aborts the
process. In the source only the dial loop retries; a channel build
failure after the connection is back hits a panic call and aborts the
process, in Consumer/Both mode as well as in Producer mode. The third
conjunct shows the part that does retry without giving up: while no dial
attempt succeeds the iteration is still inside the dial loop. -/
theorem c2_watcher_panics_on_build_failure :
    runWatcherStep false WTrigger.reconnectSignal [true] Consumer true false
      = WStep.panicked
    ∧ runWatcherStep false WTrigger.notifyClose [true] Producer false true
      = WStep.panicked
    ∧ runWatcherStep false WTrigger.notifyClose [false, false, false]
        Consumer true true = WStep.stillDialing := by
  decide

/-- C8 counterexample: the claim says a report is dropped exactly when
the caller-owned error channel is momentarily full. The source drops
whenever len(errChan) > 0: on a channel of capacity 2 holding a single
element, the channel is not full yet the report is dropped. -/
theorem c8_counterexample :
    writeError false (some (2, 1)) = WriteAction.dropped
    ∧ droppedWhenFullSpec 2 1 = false := by
  decide

/-- C8 (amended): error reporting never blocks the consume loop and a
report is dropped exactly when the channel is momentarily non-empty
(len > 0, which coincides with full only for the capacity-1 channels the
examples use); otherwise it is dispatched on its own goroutine. -/
theorem c8_drop_iff_nonempty (cap len : Nat) :
    (writeError false (some (cap, len)) = WriteAction.dropped ↔ 0 < len)
    ∧ (writeError false (some (cap, len)) = WriteAction.dispatchedGoroutine
      ↔ len = 0) := by
  by_cases h : len > 0 <;> constructor <;> simp [writeError, h] <;> omega

/-- C10: Consume invoked on a shut-down instance or in Producer mode
returns immediately with an empty event trace: no handler invocation, no
reconnect signal and no error report ever happens, and Go Consume has no
return value, so the caller observes no error indication at all. -/
theorem c10_consume_silent_return (shutdown : Bool) (mode : Mode)
    (hp : Bool) (sr : Nat → Bool) (msgs : List Delivery)
    (h : shutdown = true ∨ mode = Producer) :
    Consume shutdown mode hp sr msgs = [] := by
  rcases h with h | h
  · simp [Consume, h]
  · unfold Consume
    rw [h]
    simp

theorem c10_consume_silent_return_witness :
    Consume true Consumer false (fun _ => false) [⟨false, false, 0⟩] = [] :=
  c10_consume_silent_return true Consumer false (fun _ => false)
    [⟨false, false, 0⟩] (Or.inl rfl)

/-- C5 counterexample: the claim says the retry counter used for backoff
delays restarts for each newly received message. In a run with two
messages that each fail once under an always-retry policy, the counter
value passed to retry.Duration for the first retry of message 1 is 1,
not 0: the counter did not restart. -/
theorem c5_counterexample :
    backoffCountersOfMsg 1 (Consume false Both true (fun _ => true)
      [⟨false, false, 1⟩, ⟨false, false, 1⟩]) = [1]
    ∧ ¬ ((backoffCountersOfMsg 1 (Consume false Both true (fun _ => true)
          [⟨false, false, 1⟩, ⟨false, false, 1⟩])).head? = some 0
        ∨ backoffCountersOfMsg 1 (Consume false Both true (fun _ => true)
          [⟨false, false, 1⟩, ⟨false, false, 1⟩]) = []) := by
  decide

/-- C5 (amended): the retries counter is declared once per Consume
invocation, before the MAIN loop, and is never reset between messages:
over any whole run the sequence of counter values passed to
retry.Duration is 0, 1, 2, ... irrespective of message boundaries. -/
theorem c5_retry_counter_shared_across_messages (shutdown : Bool)
    (mode : Mode) (hp : Bool) (sr : Nat → Bool) (msgs : List Delivery) :
    backoffCounters (Consume shutdown mode hp sr msgs) =
      List.range (backoffCounters (Consume shutdown mode hp sr msgs)).length := by
  unfold Consume
  split
  · rfl
  · split
    · rfl
    · obtain ⟨k, hk⟩ := consumeGo_counters hp sr msgs 0 0 0
      rw [hk, List.length_range', List.range_eq_range']

/-- C4 counterexample: the claim says a delivery carrying the
force-reconnect header is never passed to the handler in Consume or
ConsumeOnce. ConsumeOnce only tests the acknowledgement handle: on a
delivery with the header present and a non-nil handle, the handler is
invoked and no reconnect signal is produced. -/
theorem c4_counterexample :
    (ConsumeOnce false Both false (fun _ => false)
      (some ⟨true, false, 0⟩)).1 = [CEvent.handle 0]
    ∧ CEvent.handle 0 ∈ (ConsumeOnce false Both false (fun _ => false)
        (some ⟨true, false, 0⟩)).1
    ∧ CEvent.signal ∉ (ConsumeOnce false Both false (fun _ => false)
        (some ⟨true, false, 0⟩)).1 := by
  decide

/-- C4 (amended): in Consume a delivery with a nil acknowledgement
handle or the force-reconnect header is never handled and contributes
exactly one ConsumeError report and one reconnect signal to the trace.
In ConsumeOnce only a nil acknowledgement handle is poisoned: it yields
exactly one reconnect signal, no report and no handler call, with the
failure returned as an error value; a delivery carrying the header but a
non-nil handle is handed to the handler and never signals. -/
theorem c4_poisoned_delivery_handling (hp hp2 hp3 : Bool)
    (sr sr2 sr3 : Nat → Bool) (mode2 mode3 : Mode)
    (m m2 m3 : Delivery) (rest : List Delivery) (idx retries pc : Nat)
    (hpois : m.forceReconnectHeader = true ∨ m.ackNil = true)
    (hm2 : m2.ackNil = true) (hmode2 : mode2 ≠ Producer)
    (hm3h : m3.forceReconnectHeader = true) (hm3a : m3.ackNil = false)
    (hmode3 : mode3 ≠ Producer) :
    consumeGo hp sr (m :: rest) idx retries pc =
      CEvent.report idx false :: CEvent.signal ::
        consumeGo hp sr rest (idx + 1) retries pc
    ∧ ConsumeOnce false mode2 hp2 sr2 (some m2) =
      ([CEvent.signal],
        Except.error ("detected nil acknowledger - sent signal to reconnect to RabbitMQ"))
    ∧ CEvent.handle 0 ∈ (ConsumeOnce false mode3 hp3 sr3 (some m3)).1
    ∧ CEvent.signal ∉ (ConsumeOnce false mode3 hp3 sr3 (some m3)).1 := by
  have honce : ConsumeOnce false mode3 hp3 sr3 (some m3)
      = retryLoopOnce hp3 sr3 m3.failuresBeforeSuccess 0 0 := by
    simp [ConsumeOnce, hmode3, hm3a]
  refine ⟨?_, ?_, ?_, ?_⟩
  · simp [consumeGo, hpois]
  · simp [ConsumeOnce, hmode2, hm2]
  · rw [honce]
    exact retryLoopOnce_handles hp3 sr3 m3.failuresBeforeSuccess 0 0
  · rw [honce]
    exact retryLoopOnce_no_signal hp3 sr3 m3.failuresBeforeSuccess 0 0

theorem c4_poisoned_delivery_handling_witness :
    consumeGo true (fun _ => true) (⟨false, true, 0⟩ :: []) 0 0 0 =
      CEvent.report 0 false :: CEvent.signal ::
        consumeGo true (fun _ => true) [] (0 + 1) 0 0
    ∧ ConsumeOnce false Both true (fun _ => true) (some ⟨false, true, 0⟩) =
      ([CEvent.signal],
        Except.error ("detected nil acknowledger - sent signal to reconnect to RabbitMQ"))
    ∧ CEvent.handle 0 ∈ (ConsumeOnce false Consumer true (fun _ => true)
        (some ⟨true, false, 1⟩)).1
    ∧ CEvent.signal ∉ (ConsumeOnce false Consumer true (fun _ => true)
        (some ⟨true, false, 1⟩)).1 :=
  c4_poisoned_delivery_handling true true true (fun _ => true) (fun _ => true)
    (fun _ => true) Both Consumer ⟨false, true, 0⟩ ⟨false, true, 0⟩
    ⟨true, false, 1⟩ [] 0 0 0 (by decide) (by decide) (by decide)
    (by decide) (by decide) (by decide)

/-- C3 counterexample: the claim says any Publish following a cancelled
Publish rebuilds the producer session before sending. The cancellation
path closes the channel but leaves the ProducerServerChannel field set,
and the lazy build only runs when that field is nil: the second call
does not rebuild and its send fails on the closed channel. -/
theorem c3_counterexample :
    (Publish ⟨false, Both, some ⟨false⟩⟩ true true true true).result
      = PubResult.errContextCancelled
    ∧ (Publish ⟨false, Both, some ⟨false⟩⟩ true true true
        true).state.producerChannel = some ⟨true⟩
    ∧ (Publish (Publish ⟨false, Both, some ⟨false⟩⟩ true true true true).state
        false true true true).rebuiltChannel = false
    ∧ (Publish (Publish ⟨false, Both, some ⟨false⟩⟩ true true true true).state
        false true true true).result = PubResult.errPublishFailed := by
  decide

/-- C3 (amended): a Publish whose context is cancelled (the close of the
producer channel succeeding) returns a cancellation error and closes the
producer session, but leaves the session reference set; therefore a
subsequent Publish does not rebuild the session (the rebuild runs only
when the reference is nil, on first publish) and fails sending on the
closed channel. -/
theorem c3_cancelled_publish_no_rebuild (st : PubState) (ch : Chan)
    (b1 s1 b2 s2 c2 : Bool)
    (hsd : st.shutdown = false) (hmode : st.mode ≠ Consumer)
    (hch : st.producerChannel = some ch) :
    (Publish st true b1 s1 true).result = PubResult.errContextCancelled
    ∧ (Publish st true b1 s1 true).state.producerChannel = some ⟨true⟩
    ∧ (Publish (Publish st true b1 s1 true).state false b2 s2 c2).rebuiltChannel
      = false
    ∧ (Publish (Publish st true b1 s1 true).state false b2 s2 c2).result
      = PubResult.errPublishFailed := by
  have h1 : Publish st true b1 s1 true =
      ⟨PubResult.errContextCancelled, false,
        { st with producerChannel := some ⟨true⟩ }⟩ := by
    simp [Publish, hsd, hmode, hch, pubSend]
  rw [h1]
  refine ⟨rfl, rfl, ?_, ?_⟩ <;> simp [Publish, hsd, hmode, pubSend]

theorem c3_cancelled_publish_no_rebuild_witness :
    (Publish ⟨false, Producer, some ⟨false⟩⟩ true false false true).result
      = PubResult.errContextCancelled
    ∧ (Publish ⟨false, Producer, some ⟨false⟩⟩ true false false
        true).state.producerChannel = some ⟨true⟩
    ∧ (Publish (Publish ⟨false, Producer, some ⟨false⟩⟩ true false false
        true).state false false false false).rebuiltChannel = false
    ∧ (Publish (Publish ⟨false, Producer, some ⟨false⟩⟩ true false false
        true).state false false false false).result
      = PubResult.errPublishFailed :=
  c3_cancelled_publish_no_rebuild ⟨false, Producer, some ⟨false⟩⟩ ⟨false⟩
    false false false false false rfl (by decide) rfl

/-- C9 counterexample: the claim says every public call after a
successful Close fails with a shutdown error. Stop never consults the
shutdown flag: called right after a successful Close it returns ok, and
Consume on the shut-down instance returns silently with no error
indication of any kind. -/
theorem c9_counterexample :
    (Close ⟨false, false⟩ true).1 = CloseResult.ok
    ∧ (Close ⟨false, false⟩ true).2.shutdown = true
    ∧ (Stop (Close ⟨false, false⟩ true).2 true).1 = StopResult.ok
    ∧ Consume true Both false (fun _ => false) [⟨false, false, 0⟩] = [] := by
  decide

/-- C9 (amended): a successful Close permanently sets the shutdown flag,
and subsequent Close, ConsumeOnce and Publish calls fail with the
shutdown error; Consume however returns silently with no error
indication, and Stop does not check the flag at all, running its normal
cancel-and-wait path. -/
theorem c9_close_marks_shutdown (st : LState) (b2 ce : Bool)
    (mode mode2 : Mode) (hp hp2 : Bool) (sr sr2 : Nat → Bool)
    (m : Option Delivery) (msgs : List Delivery) (pm : Mode)
    (pch : Option Chan) (cc bo so co : Bool)
    (h : st.shutdown = false) :
    (Close st true).1 = CloseResult.ok
    ∧ (Close st true).2.shutdown = true
    ∧ (Close (Close st true).2 b2).1 = CloseResult.errShutdown
    ∧ (ConsumeOnce (Close st true).2.shutdown mode hp sr m).2
      = Except.error ("client is shutdown")
    ∧ (Publish ⟨(Close st true).2.shutdown, pm, pch⟩ cc bo so co).result
      = PubResult.errShutdown
    ∧ Consume (Close st true).2.shutdown mode2 hp2 sr2 msgs = []
    ∧ (Stop (Close st true).2 ce).1
      = (if ce = true then StopResult.ok else StopResult.timeoutErr) := by
  have hc : Close st true = (CloseResult.ok, ⟨true, true⟩) := by
    simp [Close, h]
  rw [hc]
  exact ⟨rfl, rfl, rfl, rfl, rfl, rfl, rfl⟩

theorem c9_close_marks_shutdown_witness :
    (Close ⟨false, true⟩ true).1 = CloseResult.ok
    ∧ (Close ⟨false, true⟩ true).2.shutdown = true
    ∧ (Close (Close ⟨false, true⟩ true).2 false).1 = CloseResult.errShutdown
    ∧ (ConsumeOnce (Close ⟨false, true⟩ true).2.shutdown Both false
        (fun _ => false) none).2 = Except.error ("client is shutdown")
    ∧ (Publish ⟨(Close ⟨false, true⟩ true).2.shutdown, Both, none⟩ false false
        false false).result = PubResult.errShutdown
    ∧ Consume (Close ⟨false, true⟩ true).2.shutdown Consumer false
        (fun _ => false) [] = []
    ∧ (Stop (Close ⟨false, true⟩ true).2 true).1
      = (if true = true then StopResult.ok else StopResult.timeoutErr) :=
  c9_close_marks_shutdown ⟨false, true⟩ false true Both Consumer false false
    (fun _ => false) (fun _ => false) none [] Both none false false false
    false rfl

/-- C6: an Options value missing a binding or missing a non-empty URL
makes New fail with a configuration error with no dial attempted, and
validation also rejects a publishing mode (Producer or Both) without
exactly one binding, and a consuming mode (Consumer or Both) with a
binding that has no binding key. -/
theorem c6_validation_failures (dial : String → Except String Conn)
    (b : Bool) (o1 o2 o3 : Options) (bd : Binding)
    (h1 : o1.Bindings = [] ∨ ∀ u ∈ o1.URLs, u.length = 0)
    (h2m : o2.Mode = Producer ∨ o2.Mode = Both)
    (h2b : o2.Bindings.length ≠ 1)
    (h3m : o3.Mode = Consumer ∨ o3.Mode = Both)
    (h3mem : bd ∈ o3.Bindings) (h3k : bd.BindingKeys = []) :
    (New dial b (some o1)).attempted = []
    ∧ isConfigErr (New dial b (some o1)) = true
    ∧ (New dial b (some o2)).attempted = []
    ∧ isConfigErr (New dial b (some o2)) = true
    ∧ (New dial b (some o3)).attempted = []
    ∧ isConfigErr (New dial b (some o3)) = true := by
  have e1 : isErr (ValidateOptions (some o1)) = true := by
    rcases h1 with h | h
    · exact validateOptions_err_of_noBindings o1 h
    · exact validateOptions_err_of_noURL o1 h
  have e2 := validateOptions_err_of_manyBindings o2 h2m h2b
  have e3 := validateOptions_err_of_noKeys o3 h3m bd h3mem h3k
  obtain ⟨a1, c1⟩ := new_configErr_of_invalid dial b o1 e1
  obtain ⟨a2, c2⟩ := new_configErr_of_invalid dial b o2 e2
  obtain ⟨a3, c3⟩ := new_configErr_of_invalid dial b o3 e3
  exact ⟨a1, c1, a2, c2, a3, c3⟩

/-- A well-formed consumer configuration used to instantiate theorems
on concrete inputs; every defaulted field is prefilled so that
applyDefaults leaves it unchanged. -/
def baseOpts : Options :=
  { URLs := ["amqp://u"]
    Mode := Consumer
    QueueName := "q"
    Bindings := [⟨"ex", ["k"], false, "", false, false⟩]
    QosPrefetchCount := 0
    QosPrefetchSize := 0
    RetryReconnectSec := 60
    QueueDurable := false
    QueueExclusive := false
    QueueAutoDelete := false
    QueueDeclare := false
    QueueArgs := some []
    AutoAck := false
    ConsumerTag := "c"
    AppID := "a"
    UseTLS := false
    SkipVerifyTLS := false
    ConnectionTimeout := 30 }

def o1c : Options := { baseOpts with Bindings := [] }

def o2c : Options :=
  { baseOpts with
    Mode := Both
    Bindings := [⟨"ex1", ["k"], false, "", false, false⟩,
      ⟨"ex2", ["k"], false, "", false, false⟩] }

def o3c : Options :=
  { baseOpts with Bindings := [⟨"ex", [], false, "", false, false⟩] }

theorem c6_validation_failures_witness :
    (New (fun _ => Except.error ("e")) true (some o1c)).attempted = []
    ∧ isConfigErr (New (fun _ => Except.error ("e")) true (some o1c)) = true
    ∧ (New (fun _ => Except.error ("e")) true (some o2c)).attempted = []
    ∧ isConfigErr (New (fun _ => Except.error ("e")) true (some o2c)) = true
    ∧ (New (fun _ => Except.error ("e")) true (some o3c)).attempted = []
    ∧ isConfigErr (New (fun _ => Except.error ("e")) true (some o3c)) = true :=
  c6_validation_failures (fun _ => Except.error ("e")) true o1c o2c o3c
    ⟨"ex", [], false, "", false, false⟩ (Or.inl rfl) (Or.inr rfl)
    (by decide) (Or.inl rfl) (by decide) rfl

/-- The dial oracle used for the concrete New scenarios: the endpoint
good connects, u1 and u2 fail with distinct errors. -/
def dialC7 : String → Except String Conn := fun u =>
  if u = "good" then Except.ok ⟨"good"⟩
  else if u = "u1" then Except.error ("e1")
  else Except.error ("e2")

def oC7A : Options := { baseOpts with URLs := ["u1", "good"] }

def oC7B : Options := { baseOpts with URLs := ["u1", "u2"] }

/-- C7 counterexample: the claim says that when every endpoint fails New
returns a connect error aggregating all attempts. With two endpoints
failing with errors e1 and e2, the returned error wraps only e2, the
last attempt; e1, which any aggregate of all attempts contains, is not
recoverable from it. -/
theorem c7_counterexample :
    (New dialC7 true (some oC7B)).result
      = Except.error (NewErr.connectErr ("unable to dial server: e2"))
    ∧ "e1" ∈ connectErrAggregateSpec dialC7 ["u1", "u2"]
    ∧ "e1" ∉ connectErrContents (NewErr.connectErr ("unable to dial server: e2")) := by
  refine ⟨by decide, by decide, by decide⟩

/-- C7 (amended): New dials the validated endpoint list in listed order
and returns a connection from the first endpoint that dials
successfully, dialling nothing after it; when every endpoint fails it
returns a connect error wrapping only the last attempt error (the
single err variable of the loop), not an aggregate of all attempts. -/
theorem c7_first_success_and_last_error
    (dial : String → Except String Conn) (oA oB vA vB : Options)
    (preUrls postUrls : List String) (okUrl : String) (c : Conn)
    (lastUrl lastErr : String)
    (hvA : ValidateOptions (some oA) = Except.ok vA)
    (hA : vA.URLs = preUrls ++ okUrl :: postUrls)
    (hpre : ∀ u ∈ preUrls, isErr (dial u) = true)
    (hok : dial okUrl = Except.ok c)
    (hvB : ValidateOptions (some oB) = Except.ok vB)
    (hBfail : ∀ u ∈ vB.URLs, isErr (dial u) = true)
    (hBlast : vB.URLs.getLast? = some lastUrl)
    (hBlastE : dial lastUrl = Except.error lastErr) :
    New dial true (some oA) = ⟨preUrls ++ [okUrl], Except.ok (some c)⟩
    ∧ New dial true (some oB) =
      ⟨vB.URLs,
        Except.error (NewErr.connectErr ("unable to dial server: " ++ lastErr))⟩ := by
  constructor
  · have hdA := dialLoop_first_success dial c preUrls okUrl postUrls none hpre hok
    simp only [New, hvA, hA, hdA]
    simp
  · have hdB := dialLoop_all_fail dial vB.URLs none lastUrl lastErr hBfail
      hBlast hBlastE
    simp only [New, hvB, hdB]

theorem c7_first_success_and_last_error_witness :
    New dialC7 true (some oC7A) = ⟨["u1", "good"], Except.ok (some ⟨"good"⟩)⟩
    ∧ New dialC7 true (some oC7B) =
      ⟨["u1", "u2"],
        Except.error (NewErr.connectErr ("unable to dial server: e2"))⟩ :=
  c7_first_success_and_last_error dialC7 oC7A oC7B oC7A oC7B ["u1"] []
    "good" ⟨"good"⟩ "u2" "e2" rfl rfl (by decide) rfl rfl (by decide)
    rfl rfl

end Rabbit
